import Mathlib

/-!
Shallow embedding of the heuristic code-structure extraction pipeline of
`src/parsers/CodebaseScanner.js`: the regex-based fallback extractor
(`fallbackAnalysis`), the per-file parse loop (`parseFiles`), the complexity
and aggregate metrics calculators, the dependency-graph builder and the
architectural pattern detectors.  JavaScript numbers are modelled as `Rat`,
JS arrays as `List`, and the `fs` read (the only throwing operation on the
fallback path) as an `Option String` read result supplied by the caller.
-/

namespace CodebaseScanner

/-! Character classes of the regular expressions used by `fallbackAnalysis`.
`wordChar` is JS `\w`, `wsChar` is JS `\s` (ASCII part), `dotChar` is the
JS dot (anything but a line terminator), `quoteChar` is the class
containing the single quote, the double quote and the backtick. -/

def wordChar (c : Char) : Bool := c.isAlphanum || c == '_'

def wsChar (c : Char) : Bool :=
  c == ' ' || c == '\t' || c == '\n' || c == '\r' || c == Char.ofNat 11 || c == Char.ofNat 12

def dotChar (c : Char) : Bool := !(c == '\n' || c == '\r')

def quoteChar (c : Char) : Bool := c == '\'' || c == '"' || c == Char.ofNat 96

def notQuoteChar (c : Char) : Bool := !(quoteChar c)

def hashOrNl (c : Char) : Bool := c == '#' || c == '\n'

def notHashNl (c : Char) : Bool := !(hashOrNl c)

/-- `listIsStart needle hay` : does `hay` start with `needle`? -/
def listIsStart : List Char → List Char → Bool
  | [], _ => true
  | _ :: _, [] => false
  | a :: as, b :: bs => a == b && listIsStart as bs

/-- JS `hay.includes(needle)` on character lists. -/
def listContains (needle hay : List Char) : Bool :=
  (List.range (hay.length + 1)).any (fun k => listIsStart needle (hay.drop k))

/-- JS `s.includes(sub)`. -/
def strIncludes (s sub : String) : Bool := listContains sub.toList s.toList

/-- JS `s.toLowerCase()` (ASCII). -/
def toLowerStr (s : String) : String := String.mk (s.toList.map Char.toLower)

/-- JS `s.startsWith(pre)`. -/
def strStarts (s pre : String) : Bool := listIsStart pre.toList s.toList

/-- JS `s.split(sep)` for a one-character separator. -/
def splitOnChar (sep : Char) : List Char → List (List Char)
  | [] => [[]]
  | c :: rest =>
    let r := splitOnChar sep rest
    if c == sep then [] :: r
    else
      match r with
      | [] => [[c]]
      | h :: t => (c :: h) :: t

/-- Join segments with a separator (inverse of `splitOnChar`). -/
def joinSegs (sep : Char) : List (List Char) → List Char
  | [] => []
  | [seg] => seg
  | seg :: rest => seg ++ sep :: joinSegs sep rest

/-- JS `s.trim()` (over the modelled whitespace class). -/
def strTrim (s : String) : String :=
  String.mk (((s.toList.dropWhile wsChar).reverse.dropWhile wsChar).reverse)

/-! A tiny regex language covering exactly the constructs appearing in the
patterns of `fallbackAnalysis`: literal strings, a single character from a
class, greedy star / plus of a character class, and a capturing plus. -/

inductive Tok where
  | lit : String → Tok
  | cls : (Char → Bool) → Tok
  | star : (Char → Bool) → Tok
  | plus : (Char → Bool) → Tok
  | gplus : (Char → Bool) → Tok

/-- Candidate numbers of consumed characters for a greedy star over class
`p` at the front of `s`, longest first (backtracking order). -/
def starCounts (p : Char → Bool) (s : List Char) : List Nat :=
  (List.range ((s.takeWhile p).length + 1)).reverse

/-- Backtracking matcher: all ways a token sequence can match a prefix of
`s`, in JS-regex priority order; each way gives the remaining suffix and
the captures collected in order. -/
def matchToks : List Tok → List Char → List (List Char × List String)
  | [], s => [(s, [])]
  | t :: ts, s =>
    let conts : List (List Char × Option String) :=
      match t with
      | .lit l => if listIsStart l.toList s then [(s.drop l.length, none)] else []
      | .cls p =>
        match s with
        | [] => []
        | c :: rest => if p c then [(rest, none)] else []
      | .star p => (starCounts p s).map (fun k => (s.drop k, none))
      | .plus p => ((starCounts p s).filter (fun k => !(k == 0))).map (fun k => (s.drop k, none))
      | .gplus p =>
        ((starCounts p s).filter (fun k => !(k == 0))).map
          (fun k => (s.drop k, some (String.mk (s.take k))))
    conts.flatMap (fun cont =>
      (matchToks ts cont.1).map (fun res =>
        (res.1, match cont.2 with
                | some c => c :: res.2
                | none => res.2)))

/-- First (highest-priority) match of a token sequence at the front of `s`:
number of consumed characters and the captures. -/
def matchAt (toks : List Tok) (s : List Char) : Option (Nat × List String) :=
  match matchToks toks s with
  | [] => none
  | (rest, caps) :: _ => some (s.length - rest.length, caps)

/-- The JS `while ((match = re.exec(content)) !== null)` loop with the `g`
flag: leftmost matches, search resuming at the end of the previous match.
Returns the list of (match index, captures). -/
def execFrom (m : List Char → Option (Nat × List String)) (s : List Char) :
    Nat → Nat → List (Nat × List String)
  | _, 0 => []
  | i, Nat.succ fuel =>
    if i ≤ s.length then
      match m (s.drop i) with
      | none => execFrom m s (i + 1) fuel
      | some (consumed, caps) => (i, caps) :: execFrom m s (i + max consumed 1) fuel
    else []

/-- All matches of a token-sequence pattern over `content`. -/
def execPattern (toks : List Tok) (content : String) : List (Nat × List String) :=
  execFrom (matchAt toks) content.toList 0 (content.length + 1)

/-! The regular expressions of `fallbackAnalysis`, token by token. -/

/-- Pattern `/function\s+(\w+)/g`. -/
def pFunction : List Tok := [.lit "function", .plus wsChar, .gplus wordChar]

/-- Pattern `/const\s+(\w+)\s*=\s*\(/g`. -/
def pConstFn : List Tok :=
  [.lit "const", .plus wsChar, .gplus wordChar, .star wsChar, .lit "=", .star wsChar, .lit "("]

/-- Pattern `/let\s+(\w+)\s*=\s*\(/g`. -/
def pLetFn : List Tok :=
  [.lit "let", .plus wsChar, .gplus wordChar, .star wsChar, .lit "=", .star wsChar, .lit "("]

/-- Pattern `/(\w+)\s*:\s*function/g`. -/
def pMethodFn : List Tok :=
  [.gplus wordChar, .star wsChar, .lit ":", .star wsChar, .lit "function"]

/-- Pattern `/(\w+)\s*=>\s*/g`. -/
def pArrowFn : List Tok := [.gplus wordChar, .star wsChar, .lit "=>", .star wsChar]

/-- Pattern `/class\s+(\w+)/g` (shared by the JS and Python branches). -/
def pClass : List Tok := [.lit "class", .plus wsChar, .gplus wordChar]

/-- Pattern `/import.*from\s+['"\x60]([^'"\x60]+)['"\x60]/g`. -/
def pImportFrom : List Tok :=
  [.lit "import", .star dotChar, .lit "from", .plus wsChar, .cls quoteChar,
   .gplus notQuoteChar, .cls quoteChar]

/-- Pattern `/require\(['"\x60]([^'"\x60]+)['"\x60]\)/g`. -/
def pRequire : List Tok :=
  [.lit "require(", .cls quoteChar, .gplus notQuoteChar, .cls quoteChar, .lit ")"]

/-- Pattern `/def\s+(\w+)/g`. -/
def pDef : List Tok := [.lit "def", .plus wsChar, .gplus wordChar]

/-- Alternative with the optional group taken, of `/(?:from\s+(\w+)\s+)?import\s+([^#\n]+)/g`. -/
def pPyImportWithFrom : List Tok :=
  [.lit "from", .plus wsChar, .gplus wordChar, .plus wsChar, .lit "import", .plus wsChar,
   .gplus notHashNl]

/-- Alternative with the optional group not taken, of the Python import pattern. -/
def pPyImportBare : List Tok := [.lit "import", .plus wsChar, .gplus notHashNl]

/-! Data model: the per-file metadata handed to the scanner, the extraction
record types, and the `ExtractionResult` (`analysis` object literal of
`fallbackAnalysis`, which also carries `variables` and `calls`). -/

structure FileMeta where
  path : String
  relativePath : String
  extension : String
  name : String
  size : Nat
deriving DecidableEq, Repr

structure FunctionRec where
  name : String
  line : Nat
  isAsync : Bool
deriving DecidableEq, Repr

structure MethodRec where
  name : String
deriving DecidableEq, Repr

structure ClassRec where
  name : String
  line : Nat
  methods : List MethodRec
deriving DecidableEq, Repr

structure ImportRec where
  module : String
  line : Nat
deriving DecidableEq, Repr

structure CallRec where
  function : String
  line : Nat
deriving DecidableEq, Repr

structure Analysis where
  functions : List FunctionRec
  classes : List ClassRec
  imports : List ImportRec
  exports : List String
  vars : List String    -- the source field is spelled like the Lean 3 keyword
  calls : List CallRec
deriving DecidableEq, Repr

def emptyAnalysis : Analysis :=
  { functions := [], classes := [], imports := [], exports := [], vars := [], calls := [] }

/-- `content.substring(0, idx).split('\n').length` -/
def lineOf (content : String) (idx : Nat) : Nat :=
  ((content.toList.take idx).filter (fun c => c == '\n')).length + 1

/-- `content.substring(idx - 10, idx).includes('async')` (JS `substring`
clamps a negative start to 0, as `Nat` subtraction does). -/
def asyncWindow (content : String) (idx : Nat) : Bool :=
  listContains "async".toList ((content.toList.drop (idx - 10)).take (idx - (idx - 10)))

/-- One function record per match of one function pattern, in match order. -/
def functionRecordsOf (toks : List Tok) (content : String) : List FunctionRec :=
  (execPattern toks content).map (fun m =>
    { name := m.2.headD "", line := lineOf content m.1, isAsync := asyncWindow content m.1 })

def classRecordsOf (content : String) : List ClassRec :=
  (execPattern pClass content).map (fun m =>
    { name := m.2.headD "", line := lineOf content m.1, methods := [] })

def importRecordsOf (toks : List Tok) (content : String) : List ImportRec :=
  (execPattern toks content).map (fun m =>
    { module := m.2.headD "", line := lineOf content m.1 })

/-- The combined Python import pattern: at each position, the optional
`from` clause is tried first (greedy `(?:...)?`); the module is
`match[1] || match[2].trim()`. -/
def pyImportMatchAt (s : List Char) : Option (Nat × List String) :=
  match matchToks pPyImportWithFrom s with
  | (rest, caps) :: _ => some (s.length - rest.length, [caps.headD ""])
  | [] =>
    match matchToks pPyImportBare s with
    | (rest, caps) :: _ => some (s.length - rest.length, [strTrim (caps.headD "")])
    | [] => none

def pyImportRecords (content : String) : List ImportRec :=
  (execFrom pyImportMatchAt content.toList 0 (content.length + 1)).map (fun m =>
    { module := m.2.headD "", line := lineOf content m.1 })

def jsExtensions : List String := ["js", "jsx", "ts", "tsx", "mjs"]

/-- The regex fallback extractor (`fallbackAnalysis(content, file)`).  The
JS code starts from an all-empty analysis object and appends matches
pattern family by pattern family; the `exports`, `variables` and `calls`
sequences are never appended to. -/
def fallbackAnalysis (content : String) (file : FileMeta) : Analysis :=
  { functions :=
      (if jsExtensions.contains file.extension then
        functionRecordsOf pFunction content ++ functionRecordsOf pConstFn content ++
        functionRecordsOf pLetFn content ++ functionRecordsOf pMethodFn content ++
        functionRecordsOf pArrowFn content
      else []) ++
      (if file.extension == "py" then functionRecordsOf pDef content else [])
  , classes :=
      (if jsExtensions.contains file.extension then classRecordsOf content else []) ++
      (if file.extension == "py" then classRecordsOf content else [])
  , imports :=
      (if jsExtensions.contains file.extension then
        importRecordsOf pImportFrom content ++ importRecordsOf pRequire content
      else []) ++
      (if file.extension == "py" then pyImportRecords content else [])
  , exports := []
  , vars := []
  , calls := [] }

/-- `calculateComplexity(analysis)`:
`analysis.functions.length + analysis.classes.length * 2 + analysis.calls.length * 0.1`. -/
def calculateComplexity (analysis : Analysis) : Rat :=
  (analysis.functions.length : Rat) + (analysis.classes.length : Rat) * 2 +
    (analysis.calls.length : Rat) * (1 / 10)

/-- One entry of the `parsedFiles` array: the spread file metadata plus
content, analysis, `lineCount` and `complexity`. -/
structure ParsedFile where
  meta : FileMeta
  content : String
  analysis : Analysis
  lineCount : Nat
  complexity : Rat
deriving DecidableEq, Repr

/-- The body of the `parseFiles` loop for one file, on the fallback path
(the tree-sitter path is never exercised; see spec §9).  The read result is
supplied by the caller: `none` models `fs.readFile` throwing, which the
`catch` block turns into an all-empty analysis with `lineCount: 0` and
`complexity: 0`, and the loop continues with the next file. -/
def parseFile1 (file : FileMeta) (readResult : Option String) : ParsedFile :=
  match readResult with
  | some content =>
    let analysis := fallbackAnalysis content file
    { meta := file, content := content, analysis := analysis,
      lineCount := (splitOnChar '\n' content.toList).length,
      complexity := calculateComplexity analysis }
  | none =>
    { meta := file, content := "", analysis := emptyAnalysis, lineCount := 0, complexity := 0 }

/-- `parseFiles(files)` over pre-read contents. -/
def parseFiles (files : List (FileMeta × Option String)) : List ParsedFile :=
  files.map (fun fr => parseFile1 fr.1 fr.2)

/-! Path arithmetic: the fragments of Node's `path` module used by
`resolveImportPath` (posix, absolute `fromFile.path` as produced by the
scanner's directory walk). -/

/-- Node `path.dirname` for slash-separated paths without trailing slash. -/
def dirname (p : String) : String :=
  let segs := (splitOnChar '/' p.toList).dropLast
  if segs == [] then "."
  else if segs == [[]] then "/"
  else String.mk (joinSegs '/' segs)

/-- Segment normalisation of `path.resolve`: drop empty and `.` segments,
let `..` pop the previous segment. -/
def normalizeSegs : List (List Char) → List (List Char) → List (List Char)
  | [], acc => acc.reverse
  | seg :: rest, acc =>
    if seg == [] || seg == ['.'] then normalizeSegs rest acc
    else if seg == ['.', '.'] then normalizeSegs rest acc.tail
    else normalizeSegs rest (seg :: acc)

/-- Node `path.resolve(dir, m)` for an absolute `dir`. -/
def pathResolve (dir m : String) : String :=
  let joined := if strStarts m "/" then m.toList else dir.toList ++ '/' :: m.toList
  String.mk ('/' :: joinSegs '/' (normalizeSegs (splitOnChar '/' joined) []))

/-- `resolveImportPath(module, fromFile)`: a relative specifier resolves
against the importing file's directory; anything else yields `null`. -/
def resolveImportPath (module : String) (fromFile : FileMeta) : Option String :=
  if strStarts module "./" || strStarts module "../" then
    some (pathResolve (dirname fromFile.path) module)
  else none

structure GraphNode where
  id : String
  name : String
  type : String
  size : Nat
  complexity : Rat
  functions : Nat
  classes : Nat
deriving DecidableEq, Repr

structure GraphEdge where
  source : String
  target : String
  type : String
  weight : Nat
deriving DecidableEq, Repr

structure DependencyGraph where
  nodes : List GraphNode
  edges : List GraphEdge
  clusters : List String
deriving DecidableEq, Repr

/-- `buildDependencyGraph(parsedFiles)`: one node per file; one edge per
recorded import whose specifier `resolveImportPath` turns into a path (no
check that the resolved path is a scanned file). -/
def buildDependencyGraph (parsedFiles : List ParsedFile) : DependencyGraph :=
  { nodes := parsedFiles.map (fun file =>
      { id := file.meta.relativePath, name := file.meta.name, type := "file",
        size := file.meta.size, complexity := file.complexity,
        functions := file.analysis.functions.length,
        classes := file.analysis.classes.length })
  , edges := parsedFiles.flatMap (fun file =>
      file.analysis.imports.filterMap (fun imp =>
        (resolveImportPath imp.module file.meta).map (fun targetPath =>
          { source := file.meta.relativePath, target := targetPath,
            type := "import", weight := 1 })))
  , clusters := [] }

/-! Aggregate metrics. -/

structure Metrics where
  totalLines : Nat
  totalFiles : Nat
  totalFunctions : Nat
  totalClasses : Nat
  avgComplexity : Rat
  languages : List String
deriving DecidableEq, Repr

/-- `Math.round(x * 100) / 100` (`Math.round` is floor of `x + 1/2`, as
Mathlib's `round`). -/
def round2 (x : Rat) : Rat := ((round (x * 100) : Int) : Rat) / 100

/-- First-occurrence deduplication, as `[...new Set(l)]`. -/
def jsDedupAux : List String → List String → List String
  | [], _ => []
  | x :: xs, seen => if x ∈ seen then jsDedupAux xs seen else x :: jsDedupAux xs (x :: seen)

def jsDedup (l : List String) : List String := jsDedupAux l []

/-- `calculateMetrics(parsedFiles)` (its `reduce` sums modelled by `foldl`). -/
def calculateMetrics (parsedFiles : List ParsedFile) : Metrics :=
  let totalFiles := parsedFiles.length
  { totalLines := parsedFiles.foldl (fun sum file => sum + file.lineCount) 0
  , totalFiles := totalFiles
  , totalFunctions := parsedFiles.foldl (fun sum file => sum + file.analysis.functions.length) 0
  , totalClasses := parsedFiles.foldl (fun sum file => sum + file.analysis.classes.length) 0
  , avgComplexity :=
      round2 ((parsedFiles.foldl (fun sum file => sum + file.complexity) 0) / (totalFiles : Rat))
  , languages := jsDedup (parsedFiles.map (fun f => f.meta.extension)) }

/-! Pattern detectors.  Each verdict keeps the `evidence` record inline. -/

structure MVCEvidence where
  hasModels : Bool
  hasViews : Bool
  hasControllers : Bool
deriving DecidableEq, Repr

structure MVCVerdict where
  detected : Bool
  confidence : Rat
  evidence : MVCEvidence
deriving DecidableEq, Repr

/-- `detectMVCPattern(files)`. -/
def detectMVCPattern (files : List ParsedFile) : MVCVerdict :=
  let hasModels := files.any (fun f =>
    strIncludes (toLowerStr f.meta.name) "model" || strIncludes f.meta.relativePath "/models/")
  let hasViews := files.any (fun f =>
    strIncludes (toLowerStr f.meta.name) "view" || strIncludes f.meta.relativePath "/views/")
  let hasControllers := files.any (fun f =>
    strIncludes (toLowerStr f.meta.name) "controller" ||
      strIncludes f.meta.relativePath "/controllers/")
  { detected := hasModels && hasViews && hasControllers
  , confidence := ((cond hasModels 1 0 + cond hasViews 1 0 + cond hasControllers 1 0 : Nat) : Rat) / 3
  , evidence := { hasModels := hasModels, hasViews := hasViews, hasControllers := hasControllers } }

structure ModuleEvidence where
  modularStructure : Bool
deriving DecidableEq, Repr

structure ModuleVerdict where
  detected : Bool
  confidence : Rat
  evidence : ModuleEvidence
deriving DecidableEq, Repr

/-- `detectModulePattern(files)`. -/
def detectModulePattern (files : List ParsedFile) : ModuleVerdict :=
  let hasExports := files.any (fun f => f.analysis.exports.length > 0)
  let hasImports := files.any (fun f => f.analysis.imports.length > 0)
  { detected := hasExports && hasImports
  , confidence := 8 / 10
  , evidence := { modularStructure := true } }

structure SingletonEvidence where
  singletonClasses : Nat
deriving DecidableEq, Repr

structure SingletonVerdict where
  detected : Bool
  confidence : Rat
  evidence : SingletonEvidence
deriving DecidableEq, Repr

/-- `detectSingletonPattern(files)`. -/
def detectSingletonPattern (files : List ParsedFile) : SingletonVerdict :=
  let singletonClasses := files.flatMap (fun f =>
    f.analysis.classes.filter (fun cls =>
      strIncludes (toLowerStr cls.name) "singleton" ||
        cls.methods.any (fun m => m.name == "getInstance")))
  { detected := singletonClasses.length > 0
  , confidence := 9 / 10
  , evidence := { singletonClasses := singletonClasses.length } }

structure ObserverEvidence where
  observerMethods : Nat
deriving DecidableEq, Repr

structure ObserverVerdict where
  detected : Bool
  confidence : Rat
  evidence : ObserverEvidence
deriving DecidableEq, Repr

/-- `detectObserverPattern(files)`: the name list is kept verbatim from the
source, including the mixed-case entry compared against a lowercased name. -/
def detectObserverPattern (files : List ParsedFile) : ObserverVerdict :=
  let observerMethods := files.flatMap (fun f =>
    f.analysis.functions.filter (fun fn =>
      ["subscribe", "unsubscribe", "notify", "addEventListener"].contains (toLowerStr fn.name)))
  { detected := observerMethods.length > 0
  , confidence := min ((observerMethods.length : Rat) / 10) 1
  , evidence := { observerMethods := observerMethods.length } }

/-! Concrete fixtures used to settle the end-to-end scenarios. -/

def mkMeta (p rel ext nm : String) : FileMeta :=
  { path := p, relativePath := rel, extension := ext, name := nm, size := 0 }

def c1Files : List (FileMeta × Option String) :=
  [ (mkMeta "/repo/a.js" "a.js" "js" "a.js", some "")
  , (mkMeta "/repo/g.js" "g.js" "js" "g.js", some "\x00\x01(((())))")
  , (mkMeta "/repo/c.js" "c.js" "js" "c.js", none) ]

def appJsMeta : FileMeta := mkMeta "/repo/app.js" "app.js" "js" "app.js"

def c2Content : String := "function foo(){} function foo(){}"

def c34MetaA : FileMeta := mkMeta "/repo/a.js" "a.js" "js" "a.js"

def c34MetaB : FileMeta := mkMeta "/repo/b.js" "b.js" "js" "b.js"

def c34Files : List (FileMeta × Option String) :=
  [ (c34MetaA, some "import x from \"./b\"\nimport l from \"lodash\"\n")
  , (c34MetaB, some "") ]

def c34Edge : GraphEdge := { source := "a.js", target := "/repo/b", type := "import", weight := 1 }

def c5Files : List (FileMeta × Option String) :=
  [ (mkMeta "/r/models/user.js" "models/user.js" "js" "user.js", some "")
  , (mkMeta "/r/views/home.js" "views/home.js" "js" "home.js", some "")
  , (mkMeta "/r/controllers/home.js" "controllers/home.js" "js" "home.js", some "") ]

def c5SrcFiles : List (FileMeta × Option String) :=
  [ (mkMeta "/r/src/models/user.js" "src/models/user.js" "js" "user.js", some "")
  , (mkMeta "/r/src/views/home.js" "src/views/home.js" "js" "home.js", some "")
  , (mkMeta "/r/src/controllers/home.js" "src/controllers/home.js" "js" "home.js", some "") ]

def c7FileA : ParsedFile :=
  { meta := mkMeta "/repo/x.js" "x.js" "js" "x.js", content := "", analysis := emptyAnalysis,
    lineCount := 10, complexity := 0 }

def c7FileB : ParsedFile :=
  { meta := mkMeta "/repo/y.py" "y.py" "py" "y.py", content := "", analysis := emptyAnalysis,
    lineCount := 20, complexity := 0 }

def c7Files : List ParsedFile := [c7FileA, c7FileB]

def c8MetaM : FileMeta := mkMeta "/repo/m.js" "m.js" "js" "m.js"

def c8Files : List (FileMeta × Option String) :=
  [ (c8MetaM, some "module.exports = foo")
  , (mkMeta "/repo/n.js" "n.js" "js" "n.js", some "import x from \"./m\"") ]

def c9Files : List (FileMeta × Option String) :=
  [ (mkMeta "/repo/ev.js" "ev.js" "js" "ev.js", some "function addEventListener() {}") ]

def c9bFiles : List (FileMeta × Option String) :=
  [ (mkMeta "/repo/nt.js" "nt.js" "js" "nt.js", some "function notify() {}") ]

/-! Helper lemmas shared between the claim theorems. -/

theorem foldl_add_sum {α M : Type} [AddCommMonoid M] (g : α → M) :
    ∀ (l : List α) (n : M), l.foldl (fun s x => s + g x) n = n + (l.map g).sum := by
  intro l
  induction l with
  | nil => intro n; simp
  | cons a l ih => intro n; simp [ih, add_assoc]

theorem jsDedupAux_mem_iff (x : String) :
    ∀ (l seen : List String), x ∈ jsDedupAux l seen ↔ x ∈ l ∧ x ∉ seen := by
  intro l
  induction l with
  | nil => intro seen; simp [jsDedupAux]
  | cons y ys ih =>
    intro seen
    by_cases hy : y ∈ seen
    · simp only [jsDedupAux, if_pos hy, ih, List.mem_cons]
      constructor
      · tauto
      · rintro ⟨rfl | hmem, hns⟩
        · exact absurd hy hns
        · exact ⟨hmem, hns⟩
    · simp only [jsDedupAux, if_neg hy, List.mem_cons, ih]
      constructor
      · rintro (rfl | ⟨hmem, hns⟩)
        · exact ⟨Or.inl rfl, hy⟩
        · exact ⟨Or.inr hmem, fun hc => hns (Or.inr hc)⟩
      · rintro ⟨rfl | hmem, hns⟩
        · exact Or.inl rfl
        · by_cases hxy : x = y
          · exact Or.inl hxy
          · exact Or.inr ⟨hmem, fun hc => by
              rcases hc with h | h
              · exact hxy h
              · exact hns h⟩

theorem jsDedupAux_nodup : ∀ (l seen : List String), (jsDedupAux l seen).Nodup := by
  intro l
  induction l with
  | nil => intro seen; simp [jsDedupAux]
  | cons y ys ih =>
    intro seen
    by_cases hy : y ∈ seen
    · simpa [jsDedupAux, if_pos hy] using ih seen
    · simp only [jsDedupAux, if_neg hy]
      refine List.nodup_cons.mpr ⟨fun hc => ?_, ih (y :: seen)⟩
      have := (jsDedupAux_mem_iff y ys (y :: seen)).mp hc
      exact this.2 (List.mem_cons_self _ _)

/-! Claim theorems. -/

/-- Claim C1: for every input collection (empty content, binary garbage,
unterminated syntax included) the scan produces exactly one result per
file; extraction is a total function, and a per-file read error yields the
all-empty `ExtractionResult` (with `lineCount` 0) while the scan continues
over the remaining files. -/
theorem c1_extract_total_and_degrades (files : List (FileMeta × Option String)) :
    (parseFiles files).length = files.length ∧
    ∀ i (h : i < files.length) (h2 : i < (parseFiles files).length),
      ((files.get ⟨i, h⟩).2 = none →
        ((parseFiles files).get ⟨i, h2⟩).analysis = emptyAnalysis ∧
        ((parseFiles files).get ⟨i, h2⟩).lineCount = 0) ∧
      (∀ c, (files.get ⟨i, h⟩).2 = some c →
        ((parseFiles files).get ⟨i, h2⟩).analysis =
          fallbackAnalysis c (files.get ⟨i, h⟩).1) := by
  refine ⟨by simp [parseFiles], ?_⟩
  intro i h h2
  have hg : (parseFiles files).get ⟨i, h2⟩ =
      parseFile1 (files.get ⟨i, h⟩).1 (files.get ⟨i, h⟩).2 := by
    simp [parseFiles]
  constructor
  · intro hnone
    rw [hg, hnone]
    exact ⟨rfl, rfl⟩
  · intro c hsome
    rw [hg, hsome]
    rfl

/-- Witness for C1 at a concrete three-file input whose contents are the
empty string, binary-looking garbage, and an unreadable file. -/
theorem c1_witness :
    (parseFiles c1Files).length = c1Files.length ∧
    ((parseFiles c1Files).get ⟨2, by decide⟩).analysis = emptyAnalysis := by
  refine ⟨(c1_extract_total_and_degrades c1Files).1, ?_⟩
  exact (((c1_extract_total_and_degrades c1Files).2 2 (by decide) (by decide)).1 rfl).1

/-- Counterexample to claim C2: on `function foo(){} function foo(){}` the
extractor records TWO function records named `foo` — there is no
deduplication in `fallbackAnalysis`. -/
theorem c2_counterexample :
    (fallbackAnalysis c2Content appJsMeta).functions.map (fun f => f.name) = ["foo", "foo"] ∧
    (fallbackAnalysis c2Content appJsMeta).functions.length ≠ 1 := by
  constructor
  · rfl
  · decide

/-- Claim C2 as amended: a later match whose name was already recorded is
kept, not discarded; the scenario file yields exactly two identical
records named `foo`. -/
theorem c2_amended_duplicates_retained :
    (fallbackAnalysis c2Content appJsMeta).functions =
      [ { name := "foo", line := 1, isAsync := false }
      , { name := "foo", line := 1, isAsync := false } ] := by
  rfl

/-- Claim C6: the complexity score is function count + 2 × class count +
0.1 × call-site count; adding one function raises it by exactly 1 (so it
never decreases), and adding one class raises it by exactly 2, twice the
per-function increment. -/
theorem c6_complexity_formula :
    (∀ a : Analysis, calculateComplexity a =
      (a.functions.length : Rat) + 2 * (a.classes.length : Rat) + (a.calls.length : Rat) / 10) ∧
    (∀ (a : Analysis) (fn : FunctionRec),
      calculateComplexity { a with functions := fn :: a.functions } = calculateComplexity a + 1) ∧
    (∀ (a : Analysis) (fn : FunctionRec),
      calculateComplexity a ≤ calculateComplexity { a with functions := fn :: a.functions }) ∧
    (∀ (a : Analysis) (cl : ClassRec),
      calculateComplexity { a with classes := cl :: a.classes } = calculateComplexity a + 2) := by
  have hplus : ∀ (a : Analysis) (fn : FunctionRec),
      calculateComplexity { a with functions := fn :: a.functions } = calculateComplexity a + 1 := by
    intro a fn
    simp only [calculateComplexity, List.length_cons]
    push_cast
    ring
  refine ⟨?_, hplus, ?_, ?_⟩
  · intro a
    simp only [calculateComplexity]
    ring
  · intro a fn
    rw [hplus a fn]
    linarith
  · intro a cl
    simp only [calculateComplexity, List.length_cons]
    push_cast
    ring

/-- Claim C10: the Singleton verdict's confidence is 0.9 and the Modules
verdict's confidence is 0.8 for every input collection, even when the
`detected` field is false (as on the empty collection). -/
theorem c10_confidence_unconditional :
    (∀ files : List ParsedFile,
      (detectSingletonPattern files).confidence = 9 / 10 ∧
      (detectModulePattern files).confidence = 8 / 10) ∧
    (detectSingletonPattern []).detected = false ∧
    (detectModulePattern []).detected = false :=
  ⟨fun _ => ⟨rfl, rfl⟩, rfl, rfl⟩

/-- Helper: the MVC confidence is the category-fraction formula over the
reported evidence (the two fields are projections of one record literal). -/
theorem mvc_confidence_eval (files : List ParsedFile) (m v c : Bool)
    (h : (detectMVCPattern files).evidence = ⟨m, v, c⟩) :
    (detectMVCPattern files).confidence =
      ((cond m 1 0 + cond v 1 0 + cond c 1 0 : Nat) : Rat) / 3 := by
  have h0 : (detectMVCPattern files).confidence =
      ((cond (detectMVCPattern files).evidence.hasModels 1 0 +
        cond (detectMVCPattern files).evidence.hasViews 1 0 +
        cond (detectMVCPattern files).evidence.hasControllers 1 0 : Nat) : Rat) / 3 := rfl
  rw [h0, h]

/-- Helper: the Observer confidence is `min(count/10, 1)` over the
reported evidence count. -/
theorem observer_confidence_eval (files : List ParsedFile) (n : Nat)
    (h : (detectObserverPattern files).evidence = ⟨n⟩) :
    (detectObserverPattern files).confidence = min ((n : Rat) / 10) 1 := by
  have h0 : (detectObserverPattern files).confidence =
      min (((detectObserverPattern files).evidence.observerMethods : Rat) / 10) 1 := rfl
  rw [h0, h]

/-- Helper: detection of the MVC verdict coincides with its confidence
reaching 1, for any three category indicators. -/
theorem mvc_shape (m v c : Bool) :
    (m && v && c) = true ↔ ((cond m 1 0 + cond v 1 0 + cond c 1 0 : Nat) : Rat) / 3 = 1 := by
  cases m <;> cases v <;> cases c <;> norm_num

/-- Counterexample to claim C3: with `a.js` importing `./b` and `b.js`
scanned, the single emitted edge's target is the resolved absolute path
`/repo/b`, which is not an id in the node set — the builder emits an edge
for every relative import with no membership check. -/
theorem c3_counterexample :
    (buildDependencyGraph (parseFiles c34Files)).edges.map (fun e => e.target) = ["/repo/b"] ∧
    (buildDependencyGraph (parseFiles c34Files)).nodes.map (fun n => n.id) = ["a.js", "b.js"] ∧
    "/repo/b" ∉ (buildDependencyGraph (parseFiles c34Files)).nodes.map (fun n => n.id) := by
  refine ⟨by decide, by decide, by decide⟩

/-- Claim C3 as amended: every edge's source is a node id, and every edge
comes from a recorded import whose relative specifier resolved against
the importing file's directory — but the target is that resolved
absolute path, emitted without checking that it is the path of another
scanned file, so it need not be a node id. -/
theorem c3_amended_edge_structure (pf : List ParsedFile) (e : GraphEdge)
    (he : e ∈ (buildDependencyGraph pf).edges) :
    (∃ n ∈ (buildDependencyGraph pf).nodes, n.id = e.source) ∧
    ∃ f ∈ pf, ∃ imp ∈ f.analysis.imports,
      e.source = f.meta.relativePath ∧
      resolveImportPath imp.module f.meta = some e.target := by
  simp only [buildDependencyGraph, List.mem_flatMap, List.mem_filterMap] at he
  obtain ⟨f, hf, imp, himp, hsome⟩ := he
  rw [Option.map_eq_some'] at hsome
  obtain ⟨t, ht, hedge⟩ := hsome
  subst hedge
  refine ⟨?_, f, hf, imp, himp, rfl, ht⟩
  exact ⟨_, List.mem_map.mpr ⟨f, hf, rfl⟩, rfl⟩

/-- Witness for C3 (amended) at the concrete two-file scenario and its
single emitted edge. -/
theorem c3_witness :
    (∃ n ∈ (buildDependencyGraph (parseFiles c34Files)).nodes, n.id = c34Edge.source) ∧
    ∃ f ∈ parseFiles c34Files, ∃ imp ∈ f.analysis.imports,
      c34Edge.source = f.meta.relativePath ∧
      resolveImportPath imp.module f.meta = some c34Edge.target :=
  c3_amended_edge_structure (parseFiles c34Files) c34Edge (by decide)

/-- Counterexample to claim C4: the scenario produces exactly one edge,
but its target is `/repo/b`, not `b.js` — no edge with source `a.js` and
target `b.js` exists. -/
theorem c4_counterexample :
    (buildDependencyGraph (parseFiles c34Files)).edges = [c34Edge] ∧
    ¬ ∃ e ∈ (buildDependencyGraph (parseFiles c34Files)).edges,
        e.source = "a.js" ∧ e.target = "b.js" := by
  exact ⟨by decide, by decide⟩

/-- Claim C4 as amended: the relative import `./b` yields exactly one
edge, with source `a.js` and target the absolute resolved path
`path.resolve(dirname("/repo/a.js"), "./b") = "/repo/b"`; the bare
specifier `lodash` resolves to `null` and yields no edge. -/
theorem c4_amended_absolute_target :
    (buildDependencyGraph (parseFiles c34Files)).edges = [c34Edge] ∧
    c34Edge.source = "a.js" ∧
    c34Edge.target = pathResolve (dirname "/repo/a.js") "./b" ∧
    resolveImportPath "lodash" c34MetaA = none := by
  exact ⟨by decide, rfl, by decide, by decide⟩

/-- Counterexample to claim C5: on the scenario files `models/user.js`,
`views/home.js`, `controllers/home.js` the detector reports detected =
false with confidence 0, because the path heuristic looks for the
substring `/models/` (with a leading slash) and the file names do not
contain the keywords. -/
theorem c5_counterexample :
    (detectMVCPattern (parseFiles c5Files)).detected = false ∧
    (detectMVCPattern (parseFiles c5Files)).confidence = 0 := by
  refine ⟨by decide, ?_⟩
  rw [mvc_confidence_eval (parseFiles c5Files) false false false (by decide)]
  norm_num

/-- Claim C5 as amended: detected is the conjunction of the three
category indicators reported as evidence, each true iff some file matches
the (lowercased-name keyword or slash-delimited path segment) heuristic;
confidence is the fraction of categories present and reaches 1 exactly
when detected; the scenario files yield detected = false, confidence 0,
while the same layout one directory deeper (`src/models/...`) yields
detected = true, confidence 1. -/
theorem c5_amended_heuristic :
    (∀ files : List ParsedFile,
      (detectMVCPattern files).detected =
        ((detectMVCPattern files).evidence.hasModels &&
         (detectMVCPattern files).evidence.hasViews &&
         (detectMVCPattern files).evidence.hasControllers)) ∧
    (∀ files : List ParsedFile,
      (detectMVCPattern files).confidence =
        ((cond (detectMVCPattern files).evidence.hasModels 1 0 +
          cond (detectMVCPattern files).evidence.hasViews 1 0 +
          cond (detectMVCPattern files).evidence.hasControllers 1 0 : Nat) : Rat) / 3) ∧
    (∀ files : List ParsedFile,
      ((detectMVCPattern files).evidence.hasModels = true ↔
        ∃ f ∈ files, (strIncludes (toLowerStr f.meta.name) "model" ||
          strIncludes f.meta.relativePath "/models/") = true)) ∧
    (∀ files : List ParsedFile,
      ((detectMVCPattern files).detected = true ↔ (detectMVCPattern files).confidence = 1)) ∧
    ((detectMVCPattern (parseFiles c5Files)).detected = false ∧
      (detectMVCPattern (parseFiles c5Files)).evidence = ⟨false, false, false⟩) ∧
    ((detectMVCPattern (parseFiles c5SrcFiles)).detected = true ∧
      (detectMVCPattern (parseFiles c5SrcFiles)).confidence = 1 ∧
      (detectMVCPattern (parseFiles c5SrcFiles)).evidence = ⟨true, true, true⟩) := by
  refine ⟨fun files => rfl, fun files => rfl, ?_, ?_, ⟨by decide, by decide⟩,
    by decide, ?_, by decide⟩
  · intro files
    simp [detectMVCPattern, List.any_eq_true]
  · intro files
    simp only [detectMVCPattern]
    exact mvc_shape _ _ _
  · rw [mvc_confidence_eval (parseFiles c5SrcFiles) true true true (by decide)]
    norm_num

/-- Claim C7: for a non-empty file set (the empty set is a caller
precondition violation), `totalLines` is the sum of the per-file line
counts, `totalFiles` the number of files, `avgComplexity` the mean of the
per-file complexity scores rounded to two decimals, and `languages` the
deduplicated set of extensions present. -/
theorem c7_aggregate_metrics (pf : List ParsedFile) (hne : pf ≠ []) :
    (calculateMetrics pf).totalLines = (pf.map (fun f => f.lineCount)).sum ∧
    (calculateMetrics pf).totalFiles = pf.length ∧
    (calculateMetrics pf).avgComplexity =
      round2 ((pf.map (fun f => f.complexity)).sum / (pf.length : Rat)) ∧
    (∀ ext, ext ∈ (calculateMetrics pf).languages ↔ ext ∈ pf.map (fun f => f.meta.extension)) ∧
    (calculateMetrics pf).languages.Nodup := by
  refine ⟨?_, rfl, ?_, ?_, ?_⟩
  · have h := foldl_add_sum (fun f : ParsedFile => f.lineCount) pf 0
    simpa [calculateMetrics] using h
  · have h := foldl_add_sum (fun f : ParsedFile => f.complexity) pf 0
    simp only [calculateMetrics]
    rw [h]
    simp
  · intro ext
    have h := jsDedupAux_mem_iff ext (pf.map (fun f => f.meta.extension)) []
    simpa [calculateMetrics, jsDedup] using h
  · exact jsDedupAux_nodup _ _

/-- Witness for C7: two files with line counts 10 and 20 give
totalLines 30 and totalFiles 2 (end-to-end scenario D). -/
theorem c7_witness :
    c7Files ≠ [] ∧
    (calculateMetrics c7Files).totalLines = 30 ∧
    (calculateMetrics c7Files).totalFiles = 2 := by
  have hne : c7Files ≠ [] := by simp [c7Files]
  have h := c7_aggregate_metrics c7Files hne
  refine ⟨hne, ?_, ?_⟩
  · rw [h.1]; decide
  · rw [h.2.1]; decide

/-- Counterexample to claim C8: a file whose text contains a
`module.exports` declaration still gets an empty exports sequence, and a
file set satisfying the claim's premise (one file with `module.exports`,
another with an import) has the Modules pattern NOT detected. -/
theorem c8_counterexample :
    (fallbackAnalysis "module.exports = foo" c8MetaM).exports = [] ∧
    (parseFiles c8Files).map (fun f => f.analysis.exports) = [[], []] ∧
    (parseFiles c8Files).map (fun f => f.analysis.imports.length) = [0, 1] ∧
    (detectModulePattern (parseFiles c8Files)).detected = false := by
  exact ⟨rfl, by decide, by decide, by decide⟩

/-- Claim C8 as amended: the extractor has no export rules at all — the
exports sequence is empty for every input — therefore the Modules pattern
is never detected on any scanned file set, although its confidence field
is always 0.8. -/
theorem c8_amended_no_exports :
    (∀ content file, (fallbackAnalysis content file).exports = []) ∧
    (∀ files : List (FileMeta × Option String),
      (detectModulePattern (parseFiles files)).detected = false) ∧
    (∀ pf : List ParsedFile, (detectModulePattern pf).confidence = 8 / 10) := by
  refine ⟨fun _ _ => rfl, ?_, fun _ => rfl⟩
  intro files
  have hexp : (parseFiles files).any (fun f => f.analysis.exports.length > 0) = false := by
    rw [List.any_eq_false]
    intro f hf
    simp only [parseFiles, List.mem_map] at hf
    obtain ⟨pair, _, rfl⟩ := hf
    cases h2 : pair.2 <;> simp [parseFile1, h2, fallbackAnalysis, emptyAnalysis]
  have h0 : (detectModulePattern (parseFiles files)).detected =
      ((parseFiles files).any (fun f => f.analysis.exports.length > 0) &&
       (parseFiles files).any (fun f => f.analysis.imports.length > 0)) := rfl
  rw [h0, hexp, Bool.false_and]

/-- Claim C9 (a genuine code bug): the Observer detector compares the
lowercased function name against a list whose fourth entry is the
mixed-case literal `addEventListener`, which a lowercased string can never
equal — so a file whose extraction contains a function named
`addEventListener` is counted 0 and the pattern is NOT detected, while
`notify` (and the other all-lowercase names) are detected as specified. -/
theorem c9_addEventListener_never_matches :
    (parseFiles c9Files).map (fun f => f.analysis.functions.map (fun fn => fn.name)) =
      [["addEventListener"]] ∧
    (detectObserverPattern (parseFiles c9Files)).detected = false ∧
    (detectObserverPattern (parseFiles c9Files)).evidence = ⟨0⟩ ∧
    (detectObserverPattern (parseFiles c9Files)).confidence = 0 ∧
    (detectObserverPattern (parseFiles c9bFiles)).detected = true ∧
    (detectObserverPattern (parseFiles c9bFiles)).evidence = ⟨1⟩ ∧
    (detectObserverPattern (parseFiles c9bFiles)).confidence = 1 / 10 := by
  refine ⟨by decide, by decide, by decide, ?_, by decide, by decide, ?_⟩
  · rw [observer_confidence_eval (parseFiles c9Files) 0 (by decide)]
    norm_num
  · rw [observer_confidence_eval (parseFiles c9bFiles) 1 (by decide)]
    rw [min_eq_left (by norm_num)]
    norm_num

end CodebaseScanner
